import Mathlib

/-!
# Verification of the shadertoy-editor WebGL renderer core

Shallow embedding of `WebGLRenderer` (src/renderers/webgl-renderer.ts) and the
shader program assembler, with theorems settling the specification claims
about diagnostic line mapping, compile atomicity, pointer tracking, the
play/pause/restart timeline, the event channel, and `getState`.
-/

set_option maxRecDepth 100000

namespace ShadertoyEditor

/-! ## Diagnostic translator: `parseErrors`

The renderer parses the raw fragment-shader info log with the JS regex
`/ERROR:\s*\d+:(\d+):\s*(.+)/` applied to each line of the log, then maps the
reported line with `parseInt(match[1], 10) - 16` and clamps with
`Math.max(1, lineNum)`.  We model the regex by its leftmost-match semantics
specialised to this fixed pattern. -/

/-- Characters matched by the JS regex class `\s` (ASCII part; the inputs we
reason about are ASCII). -/
def jsWhitespace (c : Char) : Bool :=
  c = ' ' || c = '\t' || c = '\n' || c = '\r' || c = '\x0b' || c = '\x0c'

/-- `String.prototype.split('\n')` on the character list. -/
def splitOnNewline : List Char → List (List Char)
  | [] => [[]]
  | c :: cs =>
    if c = '\n' then [] :: splitOnNewline cs
    else
      match splitOnNewline cs with
      | [] => [[c]]
      | l :: ls => (c :: l) :: ls

/-- Drop a literal character sequence from the front, failing on mismatch. -/
def dropLit : List Char → List Char → Option (List Char)
  | [], cs => some cs
  | _ :: _, [] => none
  | l :: ls, c :: cs => if c = l then dropLit ls cs else none

/-- `parseInt(·, 10)` on a nonempty digit string. -/
def digitsToNat (ds : List Char) : Nat :=
  ds.foldl (fun a c => 10 * a + (c.toNat - 48)) 0

/-- Try to match `ERROR:\s*\d+:(\d+):\s*(.+)` with the literal `ERROR:`
anchored at the head of `cs`; returns the captured line number and message.
When `(.+)` would be empty, the regex backtracks one character into the
preceding `\s*`, so the message becomes that single whitespace character. -/
def matchErrorAt (cs : List Char) : Option (Nat × List Char) := do
  let cs ← dropLit ['E', 'R', 'R', 'O', 'R', ':'] cs
  let cs := cs.dropWhile jsWhitespace
  let d1 := cs.takeWhile Char.isDigit
  if d1.isEmpty then none else
  let cs := cs.dropWhile Char.isDigit
  let cs ← dropLit [':'] cs
  let d2 := cs.takeWhile Char.isDigit
  if d2.isEmpty then none else
  let cs := cs.dropWhile Char.isDigit
  let cs ← dropLit [':'] cs
  let ws := cs.takeWhile jsWhitespace
  let rest := cs.dropWhile jsWhitespace
  if rest.isEmpty then
    match ws.getLast? with
    | some w => some (digitsToNat d2, [w])
    | none => none
  else
    some (digitsToNat d2, rest)

/-- Leftmost match of the error regex in one log line: JS `line.match(regex)`
tries each start position from the left. -/
def findErrorMatch : List Char → Option (Nat × List Char)
  | [] => none
  | c :: cs =>
    match matchErrorAt (c :: cs) with
    | some r => some r
    | none => findErrorMatch cs

/-- JS `String.prototype.trim()` (ASCII whitespace). -/
def jsTrim (cs : List Char) : List Char :=
  ((cs.dropWhile jsWhitespace).reverse.dropWhile jsWhitespace).reverse

/-- A structured compilation diagnostic (src/types.ts `CompilationError`). -/
structure CompilationError where
  line : Int
  message : String
deriving DecidableEq, Repr

/-- `WebGLRenderer.parseErrors`: split the info log on newlines, match each
line against the error regex, subtract the literal offset 16 from the
reported line, clamp to a minimum of 1, and trim the message. -/
def parseErrors (errorLog : String) : List CompilationError :=
  (splitOnNewline errorLog.toList).filterMap fun line =>
    (findErrorMatch line).map fun m =>
      { line := max 1 ((m.1 : Int) - 16), message := String.mk (jsTrim m.2) }

/-! ## Shader program assembler: `createFragmentShader`

The wrapper template, reproduced verbatim.  The user source is inserted after
the `// User shader code` line. -/

/-- Everything `createFragmentShader` emits before the first character of the
user source. -/
def fragmentHeader : String :=
  "#version 300 es\n" ++
  "precision highp float;\n" ++
  "\n" ++
  "// Shadertoy uniforms\n" ++
  "uniform vec3 iResolution;\n" ++
  "uniform float iTime;\n" ++
  "uniform float iTimeDelta;\n" ++
  "uniform int iFrame;\n" ++
  "uniform float iFrameRate;\n" ++
  "uniform vec4 iMouse;\n" ++
  "uniform vec4 iDate;\n" ++
  "uniform sampler2D iChannel0;\n" ++
  "uniform sampler2D iChannel1;\n" ++
  "uniform sampler2D iChannel2;\n" ++
  "uniform sampler2D iChannel3;\n" ++
  "uniform vec3 iChannelResolution[4];\n" ++
  "uniform float iChannelTime[4];\n" ++
  "\n" ++
  "in vec2 v_texCoord;\n" ++
  "out vec4 outColor;\n" ++
  "\n" ++
  "// User shader code\n"

/-- Everything `createFragmentShader` emits after the user source. -/
def fragmentFooter : String :=
  "\n" ++
  "\n" ++
  "void main() \x7b\n" ++
  "    vec2 fragCoord = v_texCoord * iResolution.xy;\n" ++
  "    mainImage(outColor, fragCoord);\n" ++
  "\x7d\n"

/-- `createFragmentShader`: wrap the user code in the Shadertoy uniform
preamble and the fixed `main`. -/
def createFragmentShader (userCode : String) : String :=
  fragmentHeader ++ userCode ++ fragmentFooter

/-- The number of wrapper lines preceding the first line of user code: the
count of newline characters in the emitted header (user line `k` sits at
wrapper line `headerLineCount + k`). -/
def headerLineCount : Nat :=
  fragmentHeader.toList.count '\n'

/-! ## Renderer state machine

`WebGLRenderer` keeps its timeline and pointer state as mutable fields; we
embed them as a record and each method as a state transformer.  Host inputs
(`performance.now()`, the id returned by `requestAnimationFrame`, GL call
outcomes) are explicit parameters.  Two ghost logs record the externally
visible behaviour: `emitted`, the chronological sequence of events handed to
`emit`, and `draws`, the `iTime` value of every executed draw call. -/

/-- Polled/per-frame renderer state (src/types.ts `RendererState`). -/
structure RState where
  isPlaying : Bool
  time : ℚ
  frame : Nat
  fps : ℚ
deriving DecidableEq, Repr

/-- Events broadcast through the event channel (src/types.ts `RendererEvent`). -/
inductive REvent where
  | compileError (errors : List CompilationError)
  | compileSuccess
  | frame (state : RState)
deriving DecidableEq, Repr

/-- The `mouse` uniform vector `[x, y, clickX, clickY]`. -/
structure Mouse where
  x : ℚ
  y : ℚ
  z : ℚ
  w : ℚ
deriving DecidableEq, Repr

/-- The mutable fields of `WebGLRenderer`, plus the two ghost logs. -/
structure Renderer where
  gl : Bool
  program : Option Nat
  isPlaying : Bool
  startTime : ℚ
  pausedTime : ℚ
  lastFrameTime : ℚ
  frameCount : Nat
  animationId : Option Nat
  mouse : Mouse
  isMouseDown : Bool
  emitted : List REvent
  draws : List ℚ
deriving DecidableEq, Repr

/-- The renderer right after the constructor, with `initGL` having succeeded. -/
def initialRenderer : Renderer where
  gl := true
  program := none
  isPlaying := false
  startTime := 0
  pausedTime := 0
  lastFrameTime := 0
  frameCount := 0
  animationId := none
  mouse := ⟨0, 0, 0, 0⟩
  isMouseDown := false
  emitted := []
  draws := []

/-- `renderFrame()`: bail out unless a context and a program exist; otherwise
compute time, delta and fps, update `lastFrameTime`, push the uniforms and
issue the draw, increment `frameCount`, and emit the frame snapshot (whose
`frame` field is the already-incremented count). -/
def renderFrame (s : Renderer) (now : ℚ) : Renderer :=
  if s.gl = false ∨ s.program = none then s
  else
    let time := (now - s.startTime) / 1000
    let timeDelta := (now - s.lastFrameTime) / 1000
    let fps := if timeDelta > 0 then 1 / timeDelta else 60
    { s with
      lastFrameTime := now
      draws := s.draws ++ [time]
      frameCount := s.frameCount + 1
      emitted := s.emitted ++ [.frame ⟨s.isPlaying, time, s.frameCount + 1, fps⟩] }

/-- The `render` loop callback: return immediately unless playing, else render
one frame and store the id `rid` returned by `requestAnimationFrame` for the
next scheduled callback. -/
def renderTick (s : Renderer) (now : ℚ) (rid : Nat) : Renderer :=
  if s.isPlaying = false then s
  else { renderFrame s now with animationId := some rid }

/-- `play()`: no-op when already playing; otherwise recompute the logical
start time (continuing from `pausedTime` when positive), reset
`lastFrameTime`, mark playing, and invoke the render loop synchronously. -/
def play (s : Renderer) (now : ℚ) (rid : Nat) : Renderer :=
  if s.isPlaying = true then s
  else
    renderTick
      { s with
        isPlaying := true
        startTime := if s.pausedTime > 0 then now - s.pausedTime else now
        lastFrameTime := now }
      now rid

/-- `pause()`: unconditionally mark paused, record `now - startTime` as the
paused baseline, and cancel any scheduled callback (the source guards
`cancelAnimationFrame` on `animationId !== null`; the resulting field value
is `null` either way). -/
def pause (s : Renderer) (now : ℚ) : Renderer :=
  { s with isPlaying := false, pausedTime := now - s.startTime, animationId := none }

/-- `restart()`: zero the timeline, then when paused render one synchronous
frame. -/
def restart (s : Renderer) (now : ℚ) : Renderer :=
  let s := { s with startTime := now, pausedTime := 0, frameCount := 0, lastFrameTime := now }
  if s.isPlaying = false then renderFrame s now else s

/-- `getState()`: the polled state; its `fps` field is the literal `0`. -/
def getState (s : Renderer) (now : ℚ) : RState where
  isPlaying := s.isPlaying
  time := if s.isPlaying then (now - s.startTime) / 1000 else s.pausedTime / 1000
  frame := s.frameCount
  fps := 0

/-! ### Pointer handlers (`setupMouseEvents`) -/

/-- The fields of a DOM mouse event the handlers read. -/
structure MouseEvt where
  clientX : ℚ
  clientY : ℚ
deriving DecidableEq, Repr

/-- The fields of `canvas.getBoundingClientRect()` the handlers read. -/
structure DomRect where
  left : ℚ
  top : ℚ
  height : ℚ
deriving DecidableEq, Repr

/-- Surface-pixel x-coordinate: `e.clientX - rect.left`. -/
def surfaceX (e : MouseEvt) (r : DomRect) : ℚ := e.clientX - r.left

/-- Surface-pixel y-coordinate, flipped: `rect.height - (e.clientY - rect.top)`. -/
def surfaceY (e : MouseEvt) (r : DomRect) : ℚ := r.height - (e.clientY - r.top)

/-- The `mousedown` handler: set the pressed flag and both the current and
click positions to the press point. -/
def onMouseDown (s : Renderer) (e : MouseEvt) (r : DomRect) : Renderer :=
  { s with
    isMouseDown := true
    mouse := ⟨surfaceX e r, surfaceY e r, surfaceX e r, surfaceY e r⟩ }

/-- The `mousemove` handler: while pressed, update only the current position. -/
def onMouseMove (s : Renderer) (e : MouseEvt) (r : DomRect) : Renderer :=
  if s.isMouseDown then
    { s with mouse := { s.mouse with x := surfaceX e r, y := surfaceY e r } }
  else s

/-- The `mouseup` handler: clear the pressed flag and replace each click
component by the negated absolute value of its previous value. -/
def onMouseUp (s : Renderer) : Renderer :=
  { s with
    isMouseDown := false
    mouse := { s.mouse with z := -|s.mouse.z|, w := -|s.mouse.w| } }

/-- The `mouseleave` handler: clear the pressed flag only. -/
def onMouseLeave (s : Renderer) : Renderer :=
  { s with isMouseDown := false }

/-! ### `compile` -/

/-- Host graphics-API outcomes for one `compile` call: whether each
`createShader` / `createProgram` returned non-null, whether each compile and
the link succeeded, and the fragment info log. -/
structure GLResults where
  vertexShaderCreated : Bool
  vertexCompileOk : Bool
  fragmentShaderCreated : Bool
  fragmentCompileOk : Bool
  fragmentInfoLog : String
  programCreated : Bool
  linkOk : Bool
deriving DecidableEq, Repr

/-- `compile(shaderCode)`; `newProg` is the handle `createProgram` returns on
success.  Returns the new state and the boolean result.  Each failure path
returns `false` without touching the active `program` field; fragment-stage
failure additionally emits the parsed diagnostics.  On success the previous
program is deleted and `newProg` stored, and `compile-success` is emitted. -/
def compile (s : Renderer) (g : GLResults) (newProg : Nat) (shaderCode : String) :
    Renderer × Bool :=
  if s.gl = false then (s, false)
  else if g.vertexShaderCreated = false then (s, false)
  else if g.vertexCompileOk = false then (s, false)
  else if g.fragmentShaderCreated = false then (s, false)
  else
    let _fragmentSource := createFragmentShader shaderCode
    if g.fragmentCompileOk = false then
      ({ s with emitted := s.emitted ++ [.compileError (parseErrors g.fragmentInfoLog)] },
        false)
    else if g.programCreated = false then (s, false)
    else if g.linkOk = false then (s, false)
    else ({ s with program := some newProg, emitted := s.emitted ++ [.compileSuccess] },
        true)

/-! ### Event channel (`eventListeners`, `on`, `off`, `emit`)

Listeners are identified by handles; `on` is `Array.prototype.push`, `off`
removes by `indexOf` + `splice`, and `emit` calls every listener in array
order. -/

/-- `on(listener)`: append to the listener array. -/
def onListener (ls : List Nat) (f : Nat) : List Nat := ls ++ [f]

/-- `off(listener)`: remove the first occurrence, if any. -/
def offListener : List Nat → Nat → List Nat
  | [], _ => []
  | l :: rest, f => if l = f then rest else l :: offListener rest f

/-- `emit(event)`: the sequence of listener invocations performed, in array
order. -/
def emitTrace (ls : List Nat) (ev : REvent) : List (Nat × REvent) :=
  ls.map fun f => (f, ev)

/-- The listener array after registering `fs` in order via `on`, starting from
the empty array the constructor creates. -/
def registerAll (fs : List Nat) : List Nat :=
  fs.foldl onListener []

/-! ### Timeline steps -/

/-- One externally triggered step of the timeline: the public controls plus
the scheduled render callback. -/
inductive Step where
  | playStep (now : ℚ) (rid : Nat)
  | pauseStep (now : ℚ)
  | restartStep (now : ℚ)
  | tickStep (now : ℚ) (rid : Nat)
deriving DecidableEq, Repr

/-- Apply one timeline step. -/
def applyStep (s : Renderer) : Step → Renderer
  | .playStep now rid => play s now rid
  | .pauseStep now => pause s now
  | .restartStep now => restart s now
  | .tickStep now rid => renderTick s now rid

/-- A fully successful GL outcome. -/
def glAllOk : GLResults where
  vertexShaderCreated := true
  vertexCompileOk := true
  fragmentShaderCreated := true
  fragmentCompileOk := true
  fragmentInfoLog := ""
  programCreated := true
  linkOk := true

/-- A renderer that has successfully compiled one program (handle 7) and is
still paused. -/
def compiledRenderer : Renderer :=
  (compile initialRenderer glAllOk 7 "void mainImage()").1

/-! ## Helper lemmas -/

theorem renderFrame_isPlaying (s : Renderer) (now : ℚ) :
    (renderFrame s now).isPlaying = s.isPlaying := by
  unfold renderFrame; split <;> simp

theorem renderFrame_startTime (s : Renderer) (now : ℚ) :
    (renderFrame s now).startTime = s.startTime := by
  unfold renderFrame; split <;> simp

theorem renderFrame_pausedTime (s : Renderer) (now : ℚ) :
    (renderFrame s now).pausedTime = s.pausedTime := by
  unfold renderFrame; split <;> simp

theorem renderTick_isPlaying (s : Renderer) (now : ℚ) (rid : Nat) :
    (renderTick s now rid).isPlaying = s.isPlaying := by
  unfold renderTick; split <;> simp [renderFrame_isPlaying]

theorem renderTick_startTime (s : Renderer) (now : ℚ) (rid : Nat) :
    (renderTick s now rid).startTime = s.startTime := by
  unfold renderTick; split <;> simp [renderFrame_startTime]

theorem renderTick_pausedTime (s : Renderer) (now : ℚ) (rid : Nat) :
    (renderTick s now rid).pausedTime = s.pausedTime := by
  unfold renderTick; split <;> simp [renderFrame_pausedTime]

theorem play_of_paused (s : Renderer) (now : ℚ) (rid : Nat) (h : s.isPlaying = false) :
    (play s now rid).isPlaying = true ∧
    (play s now rid).startTime = (if s.pausedTime > 0 then now - s.pausedTime else now) ∧
    (play s now rid).pausedTime = s.pausedTime := by
  unfold play
  rw [h]
  simp [renderTick_isPlaying, renderTick_startTime, renderTick_pausedTime]

theorem compile_success_program (s : Renderer) (g : GLResults) (p : Nat) (c : String)
    (h : (compile s g p c).2 = true) : (compile s g p c).1.program = some p := by
  unfold compile at h ⊢
  split_ifs at h ⊢
  simp_all

theorem registerAll_eq (fs : List Nat) : registerAll fs = fs := by
  have h : ∀ (gs acc : List Nat), gs.foldl onListener acc = acc ++ gs := by
    intro gs
    induction gs with
    | nil => simp
    | cons g gs ih => intro acc; simp [onListener, ih]
  simpa [registerAll] using h fs []

/-! ## Claims -/

/-- C1: the assembler's preamble contributes `headerLineCount = 22` lines
before the first line of user code, yet `parseErrors` subtracts the literal
16, so the diagnostic reported at header-relative line `22 + 1` (the first
line of user code, `k = 1`) is translated to user-relative line 7, not the
required `k = 1`; only the clamp-to-1 half of the claim holds (third
conjunct). -/
theorem parseErrors_offset_mismatch :
    headerLineCount = 22 ∧
    parseErrors "ERROR: 0:23: foo undeclared" = [{ line := 7, message := "foo undeclared" }] ∧
    parseErrors "ERROR: 0:3: bad" = [{ line := 1, message := "bad" }] := by
  decide

/-- C2: every `compile` call whose fragment-stage compilation or link fails
returns `false` and leaves the active `program` field unchanged; consequently
when the pre-state came from a successful compile that stored handle `p₀`,
that last successfully linked program remains active. -/
theorem compile_failure_atomic
    (t : Renderer) (g : GLResults) (p : Nat) (c : String)
    (hfail : g.fragmentCompileOk = false ∨ g.linkOk = false) :
    (compile t g p c).2 = false ∧
    (compile t g p c).1.program = t.program ∧
    ∀ (s : Renderer) (g₀ : GLResults) (p₀ : Nat) (c₀ : String),
      (compile s g₀ p₀ c₀).2 = true → t = (compile s g₀ p₀ c₀).1 →
      (compile t g p c).1.program = some p₀ := by
  have hbase : (compile t g p c).2 = false ∧ (compile t g p c).1.program = t.program := by
    unfold compile
    split_ifs <;> simp_all
  refine ⟨hbase.1, hbase.2, ?_⟩
  intro s g₀ p₀ c₀ hok ht
  rw [hbase.2, ht, compile_success_program s g₀ p₀ c₀ hok]

/-- C2 witness: after successfully compiling program 7, a compile whose
fragment stage fails returns `false` and program 7 stays active. -/
theorem compile_failure_atomic_witness :
    (compile compiledRenderer
      { glAllOk with fragmentCompileOk := false, fragmentInfoLog := "ERROR: 0:23: x" }
      9 "bad").2 = false ∧
    (compile compiledRenderer
      { glAllOk with fragmentCompileOk := false, fragmentInfoLog := "ERROR: 0:23: x" }
      9 "bad").1.program = some 7 := by
  have h := compile_failure_atomic compiledRenderer
    { glAllOk with fragmentCompileOk := false, fragmentInfoLog := "ERROR: 0:23: x" }
    9 "bad" (Or.inl rfl)
  exact ⟨h.1, h.2.2 initialRenderer glAllOk 7 "void mainImage()" (by decide) rfl⟩

/-- C3: a press stores the surface position (y flipped) as both the current
and the click position; a move while pressed updates only the current
position; a release keeps the current position and replaces each click
component by the negated absolute value of its previous value. -/
theorem mouse_click_encoding :
    (∀ (s : Renderer) (e : MouseEvt) (r : DomRect),
        (onMouseDown s e r).mouse
          = ⟨surfaceX e r, surfaceY e r, surfaceX e r, surfaceY e r⟩ ∧
        (onMouseDown s e r).isMouseDown = true) ∧
    (∀ (s : Renderer) (e : MouseEvt) (r : DomRect), s.isMouseDown = true →
        (onMouseMove s e r).mouse
          = ⟨surfaceX e r, surfaceY e r, s.mouse.z, s.mouse.w⟩) ∧
    (∀ s : Renderer,
        (onMouseUp s).mouse = ⟨s.mouse.x, s.mouse.y, -|s.mouse.z|, -|s.mouse.w|⟩ ∧
        (onMouseUp s).isMouseDown = false) := by
  refine ⟨fun s e r => ⟨rfl, rfl⟩, fun s e r h => ?_, fun s => ⟨rfl, rfl⟩⟩
  simp [onMouseMove, h]

/-- C3 witness: press at (10,20), drag to (15,25), release: the click
position becomes (-10,-20) while the current position stays (15,25). -/
theorem mouse_click_encoding_witness :
    (onMouseDown initialRenderer ⟨10, 30⟩ ⟨0, 0, 50⟩).mouse = ⟨10, 20, 10, 20⟩ ∧
    (onMouseMove (onMouseDown initialRenderer ⟨10, 30⟩ ⟨0, 0, 50⟩) ⟨15, 25⟩ ⟨0, 0, 50⟩).mouse
      = ⟨15, 25, 10, 20⟩ ∧
    (onMouseUp (onMouseMove (onMouseDown initialRenderer ⟨10, 30⟩ ⟨0, 0, 50⟩)
        ⟨15, 25⟩ ⟨0, 0, 50⟩)).mouse
      = ⟨15, 25, -10, -20⟩ := by
  refine ⟨?_, ?_, ?_⟩
  · rw [(mouse_click_encoding.1 initialRenderer ⟨10, 30⟩ ⟨0, 0, 50⟩).1]
    norm_num [surfaceX, surfaceY]
  · rw [mouse_click_encoding.2.1 (onMouseDown initialRenderer ⟨10, 30⟩ ⟨0, 0, 50⟩)
      ⟨15, 25⟩ ⟨0, 0, 50⟩ rfl]
    norm_num [surfaceX, surfaceY, onMouseDown]
  · rw [(mouse_click_encoding.2.2 (onMouseMove (onMouseDown initialRenderer ⟨10, 30⟩ ⟨0, 0, 50⟩)
      ⟨15, 25⟩ ⟨0, 0, 50⟩)).1]
    norm_num [surfaceX, surfaceY, onMouseDown, onMouseMove]

/-- C4: play at `t₀`, accumulate elapsed time Δ, pause at `t₁`, wait an
arbitrary interval, resume via `play()` at `t₂`: the elapsed time observed
immediately after resuming equals Δ — the logical start time is recomputed on
resume, so none of the waiting interval leaks in.  The second conjunct
identifies Δ with the elapsed time observed just before pausing. -/
theorem pause_resume_continuity
    (s : Renderer) (t₀ t₁ t₂ : ℚ) (r₁ r₂ : Nat)
    (hpaused : s.isPlaying = false) (_hacc : 0 ≤ s.pausedTime)
    (h01 : t₀ ≤ t₁) (_h12 : t₁ ≤ t₂) :
    (getState (play (pause (play s t₀ r₁) t₁) t₂ r₂) t₂).time
      = (getState (pause (play s t₀ r₁) t₁) t₁).time ∧
    (getState (pause (play s t₀ r₁) t₁) t₁).time
      = (getState (play s t₀ r₁) t₁).time := by
  obtain ⟨hp₁, hst₁, -⟩ := play_of_paused s t₀ r₁ hpaused
  have hst_le : (play s t₀ r₁).startTime ≤ t₀ := by
    rw [hst₁]
    split_ifs with h
    · linarith
    · linarith
  have hΔ : 0 ≤ t₁ - (play s t₀ r₁).startTime := by linarith
  have hpause_p : (pause (play s t₀ r₁) t₁).isPlaying = false := rfl
  have hpause_pt : (pause (play s t₀ r₁) t₁).pausedTime
      = t₁ - (play s t₀ r₁).startTime := rfl
  obtain ⟨hp₃, hst₃, -⟩ := play_of_paused (pause (play s t₀ r₁) t₁) t₂ r₂ hpause_p
  constructor
  · simp only [getState, hp₃, hpause_p, if_true, Bool.false_eq_true, if_false]
    rw [hst₃, hpause_pt]
    split_ifs with h
    · ring_nf
    · have h0 : t₁ - (play s t₀ r₁).startTime = 0 := le_antisymm (not_lt.mp h) hΔ
      rw [h0]
      simp
  · simp only [getState, hpause_p, hp₁, hpause_pt, if_true, Bool.false_eq_true, if_false]

/-- C4 witness: play at 0, pause at 5000 (elapsed 5 s), resume at 100000:
the observed elapsed time right after resuming is still 5 s. -/
theorem pause_resume_continuity_witness :
    (getState (play (pause (play initialRenderer 0 1) 5000) 100000 2) 100000).time
      = (getState (pause (play initialRenderer 0 1) 5000) 5000).time ∧
    (getState (pause (play initialRenderer 0 1) 5000) 5000).time = 5 := by
  refine ⟨(pause_resume_continuity initialRenderer 0 5000 100000 1 2 rfl le_rfl
    (by norm_num) (by norm_num)).1, ?_⟩
  have hst : (play initialRenderer 0 1).startTime = 0 := by
    obtain ⟨-, h, -⟩ := play_of_paused initialRenderer 0 1 rfl
    simpa [initialRenderer] using h
  simp only [getState, pause]
  rw [hst]
  norm_num

/-- C5 counterexample: `pause()` is not a no-op on an already-paused
renderer — after play at 0 and pause at 5000 (baseline 5000), a second
`pause()` at 6000 rewrites the paused baseline to 6000, changing the state. -/
theorem pause_not_noop_when_paused :
    (pause (play initialRenderer 0 1) 5000).isPlaying = false ∧
    (pause (play initialRenderer 0 1) 5000).pausedTime = 5000 ∧
    (pause (pause (play initialRenderer 0 1) 5000) 6000).pausedTime = 6000 ∧
    pause (pause (play initialRenderer 0 1) 5000) 6000
      ≠ pause (play initialRenderer 0 1) 5000 := by
  have hst : (play initialRenderer 0 1).startTime = 0 := by
    obtain ⟨-, h, -⟩ := play_of_paused initialRenderer 0 1 rfl
    simpa [initialRenderer] using h
  have h₁ : (pause (play initialRenderer 0 1) 5000).pausedTime = 5000 := by
    simp only [pause]
    rw [hst]
    norm_num
  have h₂ : (pause (pause (play initialRenderer 0 1) 5000) 6000).pausedTime = 6000 := by
    simp only [pause]
    rw [hst]
    norm_num
  refine ⟨rfl, h₁, h₂, fun h => ?_⟩
  have := congrArg Renderer.pausedTime h
  rw [h₁, h₂] at this
  norm_num at this

/-- C5 amended: on an already-paused renderer, `pause()` leaves every field
unchanged except `pausedTime`, which it recomputes as `now - startTime` (and
the animation id, already cancelled, is set to `none`); in particular the
paused-accumulated baseline is rewritten, not preserved. -/
theorem pause_when_paused (s : Renderer) (now : ℚ) (h : s.isPlaying = false) :
    pause s now = { s with pausedTime := now - s.startTime, animationId := none } := by
  unfold pause
  cases s
  simp_all

/-- C5 amended witness: the second `pause()` at 6000 produces exactly the old
state with baseline 6000 and no scheduled callback. -/
theorem pause_when_paused_witness :
    pause (pause (play initialRenderer 0 1) 5000) 6000
      = { pause (play initialRenderer 0 1) 5000 with
          pausedTime := 6000, animationId := none } := by
  have hst : (pause (play initialRenderer 0 1) 5000).startTime = 0 := by
    show (play initialRenderer 0 1).startTime = 0
    obtain ⟨-, h, -⟩ := play_of_paused initialRenderer 0 1 rfl
    simpa [initialRenderer] using h
  rw [pause_when_paused (pause (play initialRenderer 0 1) 5000) 6000 rfl]
  simp [hst]

/-- C6: `restart` zeroes the paused baseline and moves the logical start to
`now`, so the elapsed time observed right after is 0 whether Playing or
Paused; when Playing it renders nothing synchronously; when Paused (with a
context and program) it performs exactly one synchronous frame render at
time 0, which bumps the freshly zeroed frame counter to 1. -/
theorem restart_zeroes_and_renders (s : Renderer) (now : ℚ) :
    (restart s now).pausedTime = 0 ∧
    (restart s now).startTime = now ∧
    (getState (restart s now) now).time = 0 ∧
    (s.isPlaying = true →
        (restart s now).frameCount = 0 ∧ (restart s now).draws = s.draws) ∧
    (s.isPlaying = false → s.gl = true → s.program.isSome = true →
        (restart s now).draws = s.draws ++ [0] ∧ (restart s now).frameCount = 1) := by
  cases hp : s.isPlaying with
  | true =>
      simp [restart, getState, renderFrame, hp]
  | false =>
      by_cases hguard : s.gl = false ∨ s.program = none
      · have hdraw : restart s now
            = { s with
                startTime := now
                pausedTime := 0
                frameCount := 0
                lastFrameTime := now } := by
          simp [restart, renderFrame, hp, hguard]
        rw [hdraw]
        refine ⟨rfl, rfl, by simp [getState, hp], by simp [hp], ?_⟩
        intro _ hg hpr
        rcases hguard with h | h
        · rw [hg] at h; exact absurd h (by simp)
        · rw [h] at hpr; exact absurd hpr (by simp)
      · have hdraw : restart s now
            = { s with
                startTime := now
                pausedTime := 0
                frameCount := 1
                lastFrameTime := now
                draws := s.draws ++ [(now - now) / 1000]
                emitted := s.emitted ++
                  [.frame ⟨s.isPlaying, (now - now) / 1000, 1,
                    if (now - now) / 1000 > 0 then 1 / ((now - now) / 1000) else 60⟩] } := by
          simp [restart, renderFrame, hp, hguard]
        rw [hdraw]
        refine ⟨rfl, rfl, by simp [getState, hp], by simp [hp], fun _ _ _ => ⟨?_, rfl⟩⟩
        simp

/-- C6 witness: restarting the paused `compiledRenderer` at time 100000
renders exactly one frame at time 0 and leaves observed elapsed time 0. -/
theorem restart_zeroes_and_renders_witness :
    (restart compiledRenderer 100000).draws = [0] ∧
    (restart compiledRenderer 100000).frameCount = 1 ∧
    (getState (restart compiledRenderer 100000) 100000).time = 0 := by
  obtain ⟨-, -, htime, -, hpause⟩ := restart_zeroes_and_renders compiledRenderer 100000
  obtain ⟨hd, hf⟩ := hpause rfl rfl rfl
  refine ⟨?_, hf, htime⟩
  rw [hd]
  rfl

/-- C7 counterexample: from the reachable paused state `compiledRenderer`
(one successful compile, frame count 0), the `restart` step renders a frame
and raises `frameCount` from 0 to 1 even though the clock is Paused before
and after the step — refuting "frameCount never increases while Paused". -/
theorem frameCount_increases_while_paused :
    compiledRenderer.isPlaying = false ∧
    compiledRenderer.frameCount = 0 ∧
    (applyStep compiledRenderer (.restartStep 0)).isPlaying = false ∧
    (applyStep compiledRenderer (.restartStep 0)).frameCount = 1 :=
  ⟨rfl, rfl, rfl, rfl⟩

/-- C7 amended: per-step frame accounting.  `frameCount` changes exactly with
rendered frames: a render tick while Playing (with context and program)
increments it by one and draws one frame; `play()` from Paused draws its
synchronous first frame; `pause()` never changes it; `restart()` resets it to
0 and, exactly when Paused with a program, its single synchronous render sets
it to 1 — the only way `frameCount` rises while the clock is Paused. -/
theorem frameCount_step_accounting (s : Renderer) (st : Step) :
    match st with
    | .pauseStep _ =>
        (applyStep s st).frameCount = s.frameCount ∧ (applyStep s st).draws = s.draws
    | .tickStep _ _ =>
        if s.isPlaying = true ∧ s.gl = true ∧ s.program.isSome = true then
          (applyStep s st).frameCount = s.frameCount + 1 ∧
            (applyStep s st).draws.length = s.draws.length + 1
        else (applyStep s st).frameCount = s.frameCount ∧ (applyStep s st).draws = s.draws
    | .playStep _ _ =>
        if s.isPlaying = false ∧ s.gl = true ∧ s.program.isSome = true then
          (applyStep s st).frameCount = s.frameCount + 1 ∧
            (applyStep s st).draws.length = s.draws.length + 1
        else (applyStep s st).frameCount = s.frameCount ∧ (applyStep s st).draws = s.draws
    | .restartStep _ =>
        if s.isPlaying = false ∧ s.gl = true ∧ s.program.isSome = true then
          (applyStep s st).frameCount = 1 ∧
            (applyStep s st).draws.length = s.draws.length + 1
        else (applyStep s st).frameCount = 0 ∧ (applyStep s st).draws = s.draws := by
  cases st <;> cases hp : s.isPlaying <;> cases hg : s.gl <;> cases hpr : s.program <;>
    simp [applyStep, renderTick, renderFrame, play, pause, restart, hp, hg, hpr]

/-- C8: while a press is held, `mouseleave` clears only the pressed flag: the
resulting state is the old one with `isMouseDown := false`, so all four
stored pointer components survive untouched and no sign flip is applied
(unlike the explicit `mouseup` path). -/
theorem mouseleave_clears_only_pressed (s : Renderer) (_held : s.isMouseDown = true) :
    onMouseLeave s = { s with isMouseDown := false } ∧
    (onMouseLeave s).mouse = s.mouse := ⟨rfl, rfl⟩

/-- C8 witness: leaving the surface mid-press after a press at (3,6) keeps
all four pointer values and only clears the flag. -/
theorem mouseleave_clears_only_pressed_witness :
    onMouseLeave (onMouseDown initialRenderer ⟨3, 4⟩ ⟨0, 0, 10⟩)
      = { onMouseDown initialRenderer ⟨3, 4⟩ ⟨0, 0, 10⟩ with isMouseDown := false } :=
  (mouseleave_clears_only_pressed (onMouseDown initialRenderer ⟨3, 4⟩ ⟨0, 0, 10⟩) rfl).1

/-- C9: after any sequence of `on()` registrations, a broadcast invokes every
currently registered listener exactly once, in registration order: the
invocation trace equals the registration sequence (paired with the event),
and each handle is invoked as many times as it was registered. -/
theorem emit_registration_order (fs : List Nat) (ev : REvent) :
    emitTrace (registerAll fs) ev = fs.map (fun f => (f, ev)) ∧
    ∀ f : Nat, (emitTrace (registerAll fs) ev).count (f, ev) = fs.count f := by
  refine ⟨by simp [emitTrace, registerAll_eq], fun f => ?_⟩
  rw [emitTrace, registerAll_eq]
  induction fs with
  | nil => simp
  | cons g gs ih => simp [List.count_cons, ih, Prod.ext_iff]

/-- C10: `getState` always reports `fps = 0`, whatever the play state, frame
count or render rate; the computed fps value reaches observers only in the
per-frame snapshot that `renderFrame` emits. -/
theorem getState_fps_always_zero :
    (∀ (s : Renderer) (now : ℚ), (getState s now).fps = 0) ∧
    (∀ (s : Renderer) (now : ℚ), s.gl = true → s.program.isSome = true →
        (renderFrame s now).emitted = s.emitted ++
          [.frame ⟨s.isPlaying, (now - s.startTime) / 1000, s.frameCount + 1,
            if (now - s.lastFrameTime) / 1000 > 0
            then 1 / ((now - s.lastFrameTime) / 1000) else 60⟩]) := by
  refine ⟨fun s now => rfl, fun s now hg hpr => ?_⟩
  have hguard : ¬(s.gl = false ∨ s.program = none) := by
    push_neg
    refine ⟨by simp [hg], ?_⟩
    rw [Option.isSome_iff_ne_none] at hpr
    exact hpr
  unfold renderFrame
  rw [if_neg hguard]

/-- C10 witness: polling the compiled renderer reports fps 0, while the frame
snapshot emitted by `renderFrame` at time 5 carries the computed fps 200. -/
theorem getState_fps_always_zero_witness :
    (getState compiledRenderer 5).fps = 0 ∧
    (renderFrame compiledRenderer 5).emitted
      = [.compileSuccess, .frame ⟨false, 1 / 200, 1, 200⟩] := by
  refine ⟨getState_fps_always_zero.1 compiledRenderer 5, ?_⟩
  rw [getState_fps_always_zero.2 compiledRenderer 5 rfl rfl]
  norm_num [compiledRenderer, compile, initialRenderer, glAllOk]

end ShadertoyEditor
